import Mathlib

/-!
Shallow embedding of `tasmotadevicecontroller/__init__.py`, the client
library for Tasmota smart-relay devices.

The async HTTP layer (aiohttp) is modelled by passing the outcome of the
HTTP round trip (or, for the façade methods, the outcome of
`send_raw_request`) as an explicit argument.  Each façade method returns
the Python outcome (`Except PyError α`, where `PyError` covers the raised
exception classes) together with the list of command strings actually
handed to the transport, so that "no network call is made" is expressible.

The module `tasmota_types` is imported by the source but is not part of
the repository snapshot; its enumerations are modelled from the spec
(see the doc comments of `PowerOutputType`, `PowerType`,
`FriendlyNameOutputType`, `StatusType`, `PyArg`).
-/

namespace Tasmota

/-- A decoded JSON value, as produced by `resp.json()`. -/
inductive JsonValue where
  | str (s : String)
  | num (n : Int)
  | bool (b : Bool)
  | null
  | obj (fields : List (String × JsonValue))

/-- A parsed JSON object reply (`dict` in Python); the list order is the
dict's insertion order, which `next(iter(response))` observes. -/
def Reply := List (String × JsonValue)

/-- Python key lookup in the decoded dict: `some v` when the key is
present with (decoded) value `v`, `none` when absent. -/
def lookupKey : Reply → String → Option JsonValue
  | [], _ => none
  | (k', v) :: rest, k => if k' = k then some v else lookupKey rest k

/-- Python `response.get(k)`: returns `None` both when the key is absent
and when it is present with JSON `null` (which decodes to `None`). -/
def pyGet (r : Reply) (k : String) : Option JsonValue :=
  match lookupKey r k with
  | some .null => none
  | v => v

/-- Python `response.get(k) == s` for a string constant `s`. -/
def optIsStr : Option JsonValue → String → Bool
  | some (.str s), t => s == t
  | _, _ => false

/-- Python `response.get(k) == n` for an integer constant `n`.  Python's
`bool` is a subclass of `int`, so the decoded JSON `true`/`false` compare
equal to 1/0. -/
def optIsNum : Option JsonValue → Int → Bool
  | some (.num m), n => m == n
  | some (.bool b), n => (if b then (1 : Int) else 0) == n
  | _, _ => false

/-- Payload of a raised `CommandError`. -/
inductive CommandErrorInfo where
  | httpStatus (status : Nat)
  | nonJson (raw : String)
  | badReply (r : Reply)

/-- The exceptions that can escape the library's methods.
`valueError`, `commandError`, `authenticationError` and `connectionError`
are the four documented error kinds (`ValueError`, `CommandError`,
`AuthenticationError`, `ConnectionError`); `clientException` is an
aiohttp/asyncio exception from the HTTP client propagating unwrapped, and
`stopIteration` is the `StopIteration` escaping `next(iter(response))`. -/
inductive PyError where
  | valueError (msg : String)
  | commandError (info : CommandErrorInfo)
  | authenticationError (msg : String)
  | connectionError (msg : String)
  | clientException (cause : String)
  | stopIteration

/-- Whether an exception is one of the four documented error kinds. -/
def isDocumentedErrorKind : PyError → Bool
  | .valueError _ => true
  | .commandError _ => true
  | .authenticationError _ => true
  | .connectionError _ => true
  | .clientException _ => false
  | .stopIteration => false

/-- Whether an exception is a `ConnectionError`. -/
def isConnectionError : PyError → Bool
  | .connectionError _ => true
  | _ => false

/-- Body of the HTTP response as seen by `send_raw_request`. -/
inductive HttpBody where
  | json (r : Reply)
  | nonJson (raw : String)

/-- Outcome of the HTTP round trip performed inside `send_raw_request`:
either the client raises (timeout or network-level failure) or a response
with a status code and a body arrives. -/
inductive HttpOutcome where
  | clientFailure (cause : String)
  | response (status : Nat) (body : HttpBody)

/-- `TasmotaDevice.send_raw_request`: HTTP status other than 200 and a
non-JSON body each raise `CommandError`; an exception raised by the HTTP
client itself is not caught anywhere in the method and propagates. -/
def send_raw_request (http : HttpOutcome) : Except PyError Reply :=
  match http with
  | .clientFailure cause => .error (.clientException cause)
  | .response status body =>
    if status ≠ 200 then .error (.commandError (.httpStatus status))
    else
      match body with
      | .json r => .ok r
      | .nonJson raw => .error (.commandError (.nonJson raw))

/-! ### Enumerated protocol domains

Modelled from the spec: the module `tasmota_types` with the enumerations
`PowerOutputType`, `PowerType`, `FriendlyNameOutputType`, `StatusType`
and the membership test `_isValidEnumValue` is imported by the source but
missing from the repository snapshot.  The spec fixes each domain and its
wire encoding ("PowerOutput: output index 1..N or all outputs, encoded as
0", "PowerCommand: OFF | ON | TOGGLE | BLINK | BLINK_OFF",
"FriendlyNameOutput: output index 1..N", "StatusKind: 13 named status
categories, each mapping to a numeric code 0..12").  The encodings are
strings, as the comparison `output == "0"` in `get_power` requires.
The spec leaves the output count N open; four outputs are modelled. -/

/-- Modelled from the spec: power output selector, "all outputs" encoded
as the string `"0"`, individual outputs as `"1"`, `"2"`, ... -/
inductive PowerOutputType where
  | all_outputs | output_1 | output_2 | output_3 | output_4
deriving DecidableEq

/-- Wire encoding (the Python enum member's `.value`). -/
def PowerOutputType.val : PowerOutputType → String
  | .all_outputs => "0"
  | .output_1 => "1"
  | .output_2 => "2"
  | .output_3 => "3"
  | .output_4 => "4"

/-- Modelled from the spec: the power command domain
OFF | ON | TOGGLE | BLINK | BLINK_OFF, encoded as the command words. -/
inductive PowerType where
  | OFF | ON | TOGGLE | BLINK | BLINK_OFF
deriving DecidableEq

/-- Wire encoding (the Python enum member's `.value`). -/
def PowerType.val : PowerType → String
  | .OFF => "OFF"
  | .ON => "ON"
  | .TOGGLE => "TOGGLE"
  | .BLINK => "BLINK"
  | .BLINK_OFF => "BLINK OFF"

/-- Modelled from the spec: friendly-name output selector, index 1..N. -/
inductive FriendlyNameOutputType where
  | output_1 | output_2 | output_3 | output_4
deriving DecidableEq

/-- Wire encoding (the Python enum member's `.value`). -/
def FriendlyNameOutputType.val : FriendlyNameOutputType → String
  | .output_1 => "1"
  | .output_2 => "2"
  | .output_3 => "3"
  | .output_4 => "4"

/-- Modelled from the spec: the 13 named status categories of the
docstring of `get_status`, mapping to the numeric codes 0..12. -/
inductive StatusType where
  | ABBREVIATED | ALL | DEVICE_PARAMETERS | FIRMWARE
  | LOGGING_AND_TELEMETRY | MEMORY | NETWORK | MQTT | TIME
  | CONNECTED_SENSOR | POWER_THRESHOLDS | TELE_PERIOD | STACK_DUMP
deriving DecidableEq

/-- Wire encoding (the Python enum member's `.value`). -/
def StatusType.val : StatusType → String
  | .ABBREVIATED => "0"
  | .ALL => "1"
  | .DEVICE_PARAMETERS => "2"
  | .FIRMWARE => "3"
  | .LOGGING_AND_TELEMETRY => "4"
  | .MEMORY => "5"
  | .NETWORK => "6"
  | .MQTT => "7"
  | .TIME => "8"
  | .CONNECTED_SENSOR => "9"
  | .POWER_THRESHOLDS => "10"
  | .TELE_PERIOD => "11"
  | .STACK_DUMP => "12"

/-- The 13 status categories. -/
def StatusType.all : List StatusType :=
  [.ABBREVIATED, .ALL, .DEVICE_PARAMETERS, .FIRMWARE,
   .LOGGING_AND_TELEMETRY, .MEMORY, .NETWORK, .MQTT, .TIME,
   .CONNECTED_SENSOR, .POWER_THRESHOLDS, .TELE_PERIOD, .STACK_DUMP]

/-- A Python argument for a parameter annotated with an enum type:
either an actual member of that enum, or any other Python value
(`_isValidEnumValue`, modelled from the spec as an isinstance-style
membership test, rejects the latter). -/
inductive PyArg (α : Type) where
  | val (a : α)
  | notMember

/-- Modelled from the spec: `tasmota_types._isValidEnumValue(value, T)`,
true exactly when the argument is a member of the enum `T`. -/
def isValidEnumValue {α : Type} : PyArg α → Bool
  | .val _ => true
  | .notMember => false

/-- Python `needle in hay` on strings: substring containment. -/
def strContains (hay needle : String) : Bool :=
  decide (needle.data <:+: hay.data)

/-! ### Typed command façade

Each wrapper method takes the behaviour of `send_raw_request` as a
function `send` from the command string to its outcome, and returns the
Python outcome paired with the list of command strings handed to the
transport (so `[]` means no network call was made). -/

/-- `TasmotaDevice.get_blink_count`. -/
def get_blink_count (send : String → Except PyError Reply) :
    Except PyError JsonValue × List String :=
  match send "BlinkCount" with
  | .error e => (.error e, ["BlinkCount"])
  | .ok response =>
    match pyGet response "BlinkCount" with
    | none => (.error (.commandError (.badReply response)), ["BlinkCount"])
    | some v => (.ok v, ["BlinkCount"])

/-- `TasmotaDevice.set_blink_count`. -/
def set_blink_count (send : String → Except PyError Reply) (value : Int) :
    Except PyError Int × List String :=
  if value < 0 ∨ value > 32000 then
    (.error (.valueError "Value must be between 0 and 32000"), [])
  else
    let cmd := "BlinkCount " ++ toString value
    match send cmd with
    | .error e => (.error e, [cmd])
    | .ok response =>
      if ! optIsNum (pyGet response "BlinkCount") value then
        (.error (.commandError (.badReply response)), [cmd])
      else (.ok value, [cmd])

/-- `TasmotaDevice.get_blink_time`. -/
def get_blink_time (send : String → Except PyError Reply) :
    Except PyError JsonValue × List String :=
  match send "BlinkTime" with
  | .error e => (.error e, ["BlinkTime"])
  | .ok response =>
    match pyGet response "BlinkTime" with
    | none => (.error (.commandError (.badReply response)), ["BlinkTime"])
    | some v => (.ok v, ["BlinkTime"])

/-- `TasmotaDevice.set_blink_time`. -/
def set_blink_time (send : String → Except PyError Reply) (value : Int) :
    Except PyError Int × List String :=
  if value < 2 ∨ value > 3600 then
    (.error (.valueError "Value must be between 2 and 3600"), [])
  else
    let cmd := "BlinkTime " ++ toString value
    match send cmd with
    | .error e => (.error e, [cmd])
    | .ok response =>
      if ! optIsNum (pyGet response "BlinkTime") value then
        (.error (.commandError (.badReply response)), [cmd])
      else (.ok value, [cmd])

/-- Result of `get_power`: the whole reply dict (all-outputs query) or
`response.get(power_output)` for a single output. -/
inductive GetPowerResult where
  | whole (r : Reply)
  | single (v : Option JsonValue)

/-- `TasmotaDevice.get_power`. -/
def get_power (send : String → Except PyError Reply)
    (output : PyArg PowerOutputType) :
    Except PyError GetPowerResult × List String :=
  match output with
  | .notMember => (.error (.valueError "Received invalid value for 'output'!"), [])
  | .val o =>
    let outputVal := o.val
    let power_output := "POWER" ++ outputVal
    match send power_output with
    | .error e => (.error e, [power_output])
    | .ok response =>
      if outputVal = "0" then (.ok (.whole response), [power_output])
      else if ! optIsStr (pyGet response power_output) "ON"
              && ! optIsStr (pyGet response power_output) "OFF" then
        (.error (.commandError (.badReply response)), [power_output])
      else (.ok (.single (pyGet response power_output)), [power_output])

/-- `TasmotaDevice.set_power`.  Note the TOGGLE branch: the source checks
`response.get(power_output) != "ON" and response.get("POWER") != "OFF"`,
with the literal key `"POWER"` in the second test. -/
def set_power (send : String → Except PyError Reply)
    (value : PyArg PowerType) (output : PyArg PowerOutputType) :
    Except PyError Bool × List String :=
  match value with
  | .notMember => (.error (.valueError "Received invalid value for 'value'!"), [])
  | .val v =>
    match output with
    | .notMember => (.error (.valueError "Received invalid value for 'output'!"), [])
    | .val o =>
      if (v = .BLINK ∨ v = .BLINK_OFF) ∧ o = .all_outputs then
        (.error (.valueError "Power type 'BLINK' and 'BLINK_OFF' can only be set for specific outputs, not all!"), [])
      else
        let parsed_value := v.val
        let power_output := "POWER" ++ o.val
        let cmd := power_output ++ " " ++ parsed_value
        match send cmd with
        | .error e => (.error e, [cmd])
        | .ok response =>
          if (pyGet response power_output).isNone then
            (.error (.commandError (.badReply response)), [cmd])
          else
            match v with
            | .OFF =>
              if ! optIsStr (pyGet response power_output) "OFF" then
                (.error (.commandError (.badReply response)), [cmd])
              else (.ok false, [cmd])
            | .ON =>
              if ! optIsStr (pyGet response power_output) "ON" then
                (.error (.commandError (.badReply response)), [cmd])
              else (.ok true, [cmd])
            | .TOGGLE =>
              if ! optIsStr (pyGet response power_output) "ON"
                 && ! optIsStr (pyGet response "POWER") "OFF" then
                (.error (.commandError (.badReply response)), [cmd])
              else (.ok (optIsStr (pyGet response power_output) "ON"), [cmd])
            | .BLINK =>
              if ! optIsStr (pyGet response power_output) "Blink ON" then
                (.error (.commandError (.badReply response)), [cmd])
              else (.ok true, [cmd])
            | .BLINK_OFF =>
              if ! optIsStr (pyGet response power_output) "Blink OFF" then
                (.error (.commandError (.badReply response)), [cmd])
              else (.ok true, [cmd])

/-- `TasmotaDevice.get_friendly_name`. -/
def get_friendly_name (send : String → Except PyError Reply)
    (output : PyArg FriendlyNameOutputType) :
    Except PyError JsonValue × List String :=
  match output with
  | .notMember => (.error (.valueError "Received invalid value for 'output'!"), [])
  | .val o =>
    let cmd := "FriendlyName" ++ o.val
    match send cmd with
    | .error e => (.error e, [cmd])
    | .ok response =>
      match pyGet response ("FriendlyName" ++ o.val) with
      | none => (.error (.commandError (.badReply response)), [cmd])
      | some v => (.ok v, [cmd])

/-- `TasmotaDevice.set_friendly_name`. -/
def set_friendly_name (send : String → Except PyError Reply)
    (value : String) (output : PyArg FriendlyNameOutputType) :
    Except PyError String × List String :=
  match output with
  | .notMember => (.error (.valueError "Received invalid value for 'output'!"), [])
  | .val o =>
    if value.length > 32 then
      (.error (.valueError "Name must be at most 32 characters long"), [])
    else
      let cmd := "FriendlyName" ++ o.val ++ " " ++ value
      match send cmd with
      | .error e => (.error e, [cmd])
      | .ok response =>
        if ! optIsStr (pyGet response ("FriendlyName" ++ o.val)) value then
          (.error (.commandError (.badReply response)), [cmd])
        else (.ok value, [cmd])

/-- `TasmotaDevice.get_status`: on an empty reply dict,
`next(iter(response))` raises `StopIteration`; otherwise the first key
must contain the substring `"Status"`. -/
def get_status (send : String → Except PyError Reply)
    (statusType : PyArg StatusType) :
    Except PyError Reply × List String :=
  match statusType with
  | .notMember => (.error (.valueError "Received invalid value for 'statusType'!"), [])
  | .val st =>
    let cmd := "Status " ++ st.val
    match send cmd with
    | .error e => (.error e, [cmd])
    | .ok response =>
      match response with
      | [] => (.error .stopIteration, [cmd])
      | (k, _) :: _ =>
        if ! strContains k "Status" then
          (.error (.commandError (.badReply response)), [cmd])
        else (.ok response, [cmd])

/-! ### Connection establishment -/

/-- The connection object built by `TasmotaDevice.connect`. -/
structure TasmotaDevice where
  url : String
  login_info : List (String × String)
  timeout : Int

/-- Python `url.rstrip("/")`: remove every trailing `/`. -/
def rstripSlashes (s : String) : String :=
  String.mk (s.data.reverse.dropWhile (fun c => c = '/')).reverse

/-- Python `s.startswith(pre)`. -/
def strStartsWith (s pre : String) : Bool :=
  pre.data.isPrefixOf s.data

/-- The URL normalization done by `connect`: strip trailing slashes, then
prepend `http://` when the result starts with neither `http://` nor
`https://`. -/
def normalizeUrl (url : String) : String :=
  let u := rstripSlashes url
  if strStartsWith u "http://" || strStartsWith u "https://" then u
  else "http://" ++ u

/-- The device's authentication-prompt marker that `connect` looks for in
the text of the probe failure. -/
def authPromptMarker : String := "Need user=<username>&password=<password>"

/-- `TasmotaDevice.connect`.  The liveness probe (`await self.get_status()`)
is modelled by its observable outcome: `none` when the probe succeeds,
`some errText` when it raises an exception whose `str` is `errText`
(the `except` block only ever inspects `str(e)`). -/
def connect (url : String) (username password : Option String)
    (timeout : Int) (probeFailure : Option String) :
    Except PyError TasmotaDevice :=
  if (username.isNone) ≠ (password.isNone) then
    .error (.valueError "Username and password must either be both not set or both set!")
  else
    let u := normalizeUrl url
    let login_info : List (String × String) :=
      match username, password with
      | some un, some pw => [("user", un), ("password", pw)]
      | _, _ => []
    match probeFailure with
    | none => .ok { url := u, login_info := login_info, timeout := timeout }
    | some errText =>
      if strContains errText authPromptMarker then
        if password.isNone then
          .error (.authenticationError "Username (usually admin) and password are required")
        else
          .error (.authenticationError "Username and / or password are invalid")
      else
        .error (.connectionError ("Failed to connect to tasmota device: " ++ errText))

/-! ### Helper lemmas -/

theorem optIsNum_eq_true {o : Option JsonValue} {n : Int} :
    optIsNum o n = true ↔
      o = some (.num n) ∨
      (o = some (.bool true) ∧ n = 1) ∨
      (o = some (.bool false) ∧ n = 0) := by
  cases o with
  | none => simp [optIsNum]
  | some v =>
    cases v with
    | num m => simp [optIsNum]
    | bool b => cases b <;> simp [optIsNum] <;> omega
    | str s => simp [optIsNum]
    | null => simp [optIsNum]
    | obj fields => simp [optIsNum]

theorem optIsStr_eq_true {o : Option JsonValue} {s : String} :
    optIsStr o s = true ↔ o = some (.str s) := by
  cases o with
  | none => simp [optIsStr]
  | some v => cases v <;> simp [optIsStr]

theorem pyGet_of_null {r : Reply} {k : String}
    (h : lookupKey r k = some .null) : pyGet r k = none := by
  unfold pyGet
  rw [h]

theorem isPrefixOf_append {α : Type} [BEq α] [LawfulBEq α] :
    ∀ (l t : List α), l.isPrefixOf (l ++ t) = true
  | [], _ => by simp [List.isPrefixOf]
  | a :: l, t => by simp [List.isPrefixOf, isPrefixOf_append l t]

theorem pyGet_ne_null {r : Reply} {k : String} {v : JsonValue}
    (h : pyGet r k = some v) : v ≠ JsonValue.null := by
  intro hv
  subst hv
  unfold pyGet at h
  rcases hl : lookupKey r k with _ | w
  · rw [hl] at h
    exact absurd h (by simp)
  · rw [hl] at h
    cases w <;> simp_all

/-! ### Claims -/

/-- C1: the claim says `set_power` with command TOGGLE on a specific
output n raises `CommandFailure` unless the value under `POWER<n>` is
"ON" or "OFF", returning true iff "ON".  The code instead checks the
literal key `"POWER"` in the second half of the TOGGLE test, so the
legitimate reply mapping `POWER1` to "OFF" is rejected with
`CommandError` instead of returning `false`. -/
theorem set_power_toggle_rejects_off_reply :
    set_power (fun _ => .ok [("POWER1", .str "OFF")]) (.val .TOGGLE) (.val .output_1) =
      (.error (.commandError (.badReply [("POWER1", .str "OFF")])), ["POWER1 TOGGLE"]) := rfl

/-- C3 counterexample: a timeout or network-level failure inside
`send_raw_request` propagates the HTTP client's own exception, which is
not a `ConnectionError` and not any of the four documented error kinds
(the `try` block only wraps the JSON decoding). -/
theorem send_raw_request_net_failure_unclassified :
    send_raw_request (.clientFailure "TimeoutError") =
      .error (.clientException "TimeoutError") ∧
    isConnectionError (.clientException "TimeoutError") = false ∧
    isDocumentedErrorKind (.clientException "TimeoutError") = false :=
  ⟨rfl, rfl, rfl⟩

/-- C3 amended: `send_raw_request` lets client-level failures (timeout,
network error) propagate unclassified; it classifies an HTTP status other
than 200 and a non-JSON body as `CommandError`, and returns the parsed
JSON object on a 200 JSON response. -/
theorem send_raw_request_classification :
    ∀ (cause raw : String) (status : Nat) (body : HttpBody) (r : Reply),
      send_raw_request (.clientFailure cause) = .error (.clientException cause) ∧
      (status ≠ 200 →
        send_raw_request (.response status body) =
          .error (.commandError (.httpStatus status))) ∧
      send_raw_request (.response 200 (.json r)) = .ok r ∧
      send_raw_request (.response 200 (.nonJson raw)) =
        .error (.commandError (.nonJson raw)) := by
  intro cause raw status body r
  refine ⟨rfl, ?_, rfl, rfl⟩
  intro h
  simp [send_raw_request, h]

/-- C3 amended, witness: a 404 response is classified as `CommandError`. -/
theorem send_raw_request_classification_witness :
    send_raw_request (.response 404 (.json [])) =
      .error (.commandError (.httpStatus 404)) :=
  (send_raw_request_classification "c" "r" 404 (.json []) []).2.1 (by decide)

/-- C9: when the transport hands `get_status` an empty JSON object, the
call fails with `StopIteration` (from `next(iter(response))`), which is
none of the four documented error kinds. -/
theorem get_status_empty_reply_stopiteration :
    ∀ (send : String → Except PyError Reply) (st : StatusType),
      send ("Status " ++ st.val) = .ok [] →
      (get_status send (.val st)).1 = .error .stopIteration ∧
      isDocumentedErrorKind .stopIteration = false := by
  intro send st h
  exact ⟨by simp [get_status, h], rfl⟩

/-- C9 witness: the empty reply to `Status 0` raises `StopIteration`. -/
theorem get_status_empty_reply_stopiteration_witness :
    (get_status (fun _ => .ok []) (.val .ABBREVIATED)).1 = .error .stopIteration :=
  (get_status_empty_reply_stopiteration (fun _ => .ok []) .ABBREVIATED rfl).1

/-- C2: when the liveness probe of `connect` fails (with valid, i.e.
all-or-nothing, credentials, which is required for the probe to be
reached at all) and the failure text contains the authentication-prompt
marker, `connect` raises `AuthenticationError` — with the
credentials-required message when no password was supplied and the
credentials-invalid message otherwise; any other probe failure is
re-raised as `ConnectionError` wrapping the failure text. -/
theorem connect_probe_failure_classification :
    ∀ (url : String) (username password : Option String) (timeout : Int)
      (errText : String),
      username.isNone = password.isNone →
      (strContains errText authPromptMarker = true →
        connect url username password timeout (some errText) =
          .error (.authenticationError
            (if password.isNone then
               "Username (usually admin) and password are required"
             else "Username and / or password are invalid"))) ∧
      (strContains errText authPromptMarker = false →
        connect url username password timeout (some errText) =
          .error (.connectionError
            ("Failed to connect to tasmota device: " ++ errText))) := by
  intro url un pw t errText hcred
  refine ⟨?_, ?_⟩ <;> intro h
  · cases hpw : pw.isNone <;> simp [connect, hcred, h, hpw]
  · simp [connect, hcred, h]

/-- C2 witness: with no credentials and a probe failure whose text is the
marker itself, `connect` raises the credentials-required
`AuthenticationError`. -/
theorem connect_probe_failure_classification_witness :
    connect "device" none none 30 (some authPromptMarker) =
      .error (.authenticationError
        "Username (usually admin) and password are required") :=
  (connect_probe_failure_classification "device" none none 30
      authPromptMarker rfl).1 rfl

/-- C4 counterexample: the claim says `set_blink_count v` raises
`CommandFailure` whenever the reply does not map `BlinkCount` to `v`,
but Python's `bool` subclasses `int`, so the reply mapping `BlinkCount`
to JSON `true` — which is not the JSON number 1 — is accepted by
`True != 1` being false, and `set_blink_count 1` returns 1. -/
theorem set_blink_count_accepts_bool_echo :
    set_blink_count (fun _ => .ok [("BlinkCount", .bool true)]) 1 =
      (.ok 1, ["BlinkCount 1"]) ∧
    pyGet [("BlinkCount", .bool true)] "BlinkCount" ≠ some (.num 1) := by
  refine ⟨rfl, ?_⟩
  intro h
  exact JsonValue.noConfusion (Option.some.inj h)

/-- C4 amended: for 0 ≤ v ≤ 32000, `set_blink_count` sends exactly the
command `BlinkCount v` and returns `v` when the reply's value under
`BlinkCount` equals `v` under Python equality — the JSON number `v`, or
JSON `true` with v = 1, or JSON `false` with v = 0, since Python's
`bool` subclasses `int` — raising `CommandError` on any other reply;
out-of-range values raise `ValueError` with no network call. -/
theorem set_blink_count_python_eq_spec :
    ∀ (send : String → Except PyError Reply) (v : Int),
      (0 ≤ v ∧ v ≤ 32000 →
        (set_blink_count send v).2 = ["BlinkCount " ++ toString v] ∧
        ∀ r : Reply, send ("BlinkCount " ++ toString v) = .ok r →
          ((pyGet r "BlinkCount" = some (.num v) ∨
            (pyGet r "BlinkCount" = some (.bool true) ∧ v = 1) ∨
            (pyGet r "BlinkCount" = some (.bool false) ∧ v = 0)) →
            (set_blink_count send v).1 = .ok v) ∧
          (¬ (pyGet r "BlinkCount" = some (.num v) ∨
              (pyGet r "BlinkCount" = some (.bool true) ∧ v = 1) ∨
              (pyGet r "BlinkCount" = some (.bool false) ∧ v = 0)) →
            (set_blink_count send v).1 =
              .error (.commandError (.badReply r)))) ∧
      ((v < 0 ∨ v > 32000) →
        set_blink_count send v =
          (.error (.valueError "Value must be between 0 and 32000"), [])) := by
  intro send v
  constructor
  · rintro ⟨h0, h1⟩
    have hrange : ¬ (v < 0 ∨ v > 32000) := by omega
    constructor
    · cases hs : send ("BlinkCount " ++ toString v) with
      | error e => simp [set_blink_count, hrange, hs]
      | ok r =>
        simp only [set_blink_count, hrange, if_false, hs]
        split <;> rfl
    · intro r hr
      constructor
      · intro hget
        have hb : optIsNum (pyGet r "BlinkCount") v = true :=
          optIsNum_eq_true.mpr hget
        simp [set_blink_count, hrange, hr, hb]
      · intro hget
        have hb : optIsNum (pyGet r "BlinkCount") v = false := by
          cases hb : optIsNum (pyGet r "BlinkCount") v
          · rfl
          · exact absurd (optIsNum_eq_true.mp hb) hget
        simp [set_blink_count, hrange, hr, hb]
  · intro h
    simp [set_blink_count, h]

/-- C4 amended, witness: `set_blink_count 5` against a device echoing
the number 5 under `BlinkCount` sends `BlinkCount 5` and returns 5. -/
theorem set_blink_count_python_eq_spec_witness :
    (set_blink_count (fun _ => .ok [("BlinkCount", .num 5)]) 5).1 = .ok 5 :=
  (((set_blink_count_python_eq_spec (fun _ => .ok [("BlinkCount", .num 5)]) 5).1
      (by decide)).2 [("BlinkCount", .num 5)] rfl).1 (Or.inl rfl)

/-- C5: `get_power` on `ALL_OUTPUTS` returns every transport reply to the
caller unmodified (as the whole dict), with no ON/OFF validation. -/
theorem get_power_all_outputs_returns_raw :
    ∀ (send : String → Except PyError Reply) (r : Reply),
      send "POWER0" = .ok r →
      get_power send (.val .all_outputs) = (.ok (.whole r), ["POWER0"]) := by
  intro send r h
  have e : ("POWER" ++ ("0" : String)) = "POWER0" := rfl
  simp [get_power, PowerOutputType.val, e, h]

/-- C5 witness: a reply with neither "ON" nor "OFF" anywhere is returned
raw by `get_power` on all outputs. -/
theorem get_power_all_outputs_returns_raw_witness :
    get_power (fun _ => .ok [("Anything", .num 7)]) (.val .all_outputs) =
      (.ok (.whole [("Anything", .num 7)]), ["POWER0"]) :=
  get_power_all_outputs_returns_raw (fun _ => .ok [("Anything", .num 7)])
    [("Anything", .num 7)] rfl

/-- C6: every façade operation rejects every caller-supplied input
outside its documented domain with `ValueError` before any network call:
out-of-range blink count and blink time, non-enum output/command/status
values, friendly names longer than 32 characters, and BLINK/BLINK_OFF
combined with ALL_OUTPUTS; the transport is never invoked (the list of
sent commands is empty). -/
theorem invalid_inputs_rejected_before_network :
    ∀ (send : String → Except PyError Reply),
      (∀ v : Int, (v < 0 ∨ v > 32000) →
        set_blink_count send v =
          (.error (.valueError "Value must be between 0 and 32000"), [])) ∧
      (∀ v : Int, (v < 2 ∨ v > 3600) →
        set_blink_time send v =
          (.error (.valueError "Value must be between 2 and 3600"), [])) ∧
      (∀ (name : String) (o : FriendlyNameOutputType), name.length > 32 →
        set_friendly_name send name (.val o) =
          (.error (.valueError "Name must be at most 32 characters long"), [])) ∧
      (∀ v : PowerType, (v = .BLINK ∨ v = .BLINK_OFF) →
        set_power send (.val v) (.val .all_outputs) =
          (.error (.valueError "Power type 'BLINK' and 'BLINK_OFF' can only be set for specific outputs, not all!"), [])) ∧
      (get_power send .notMember =
        (.error (.valueError "Received invalid value for 'output'!"), [])) ∧
      (∀ output : PyArg PowerOutputType, set_power send .notMember output =
        (.error (.valueError "Received invalid value for 'value'!"), [])) ∧
      (∀ v : PowerType, set_power send (.val v) .notMember =
        (.error (.valueError "Received invalid value for 'output'!"), [])) ∧
      (get_friendly_name send .notMember =
        (.error (.valueError "Received invalid value for 'output'!"), [])) ∧
      (∀ name : String, set_friendly_name send name .notMember =
        (.error (.valueError "Received invalid value for 'output'!"), [])) ∧
      (get_status send .notMember =
        (.error (.valueError "Received invalid value for 'statusType'!"), [])) := by
  intro send
  refine ⟨?_, ?_, ?_, ?_, rfl, fun _ => rfl, fun _ => rfl, rfl, fun _ => rfl, rfl⟩
  · intro v h
    simp [set_blink_count, h]
  · intro v h
    simp [set_blink_time, h]
  · intro name o h
    simp [set_friendly_name, h]
  · rintro v (rfl | rfl) <;> simp [set_power]

/-- C6 witness: a blink count below the range is rejected with
`ValueError` and nothing is sent. -/
theorem invalid_inputs_rejected_before_network_witness :
    set_blink_count (fun _ => .ok []) (-1) =
      (.error (.valueError "Value must be between 0 and 32000"), []) :=
  (invalid_inputs_rejected_before_network (fun _ => .ok [])).1 (-1)
    (Or.inl (by decide))

/-- C7: for each of the 13 `StatusType` values, `get_status` sends
`Status <code>` with that kind's numeric code (the 13 codes being exactly
0..12), raises `CommandError` when the first key of the reply does not
contain the substring "Status", and otherwise returns the raw reply. -/
theorem get_status_spec :
    ∀ (send : String → Except PyError Reply) (st : StatusType),
      (get_status send (.val st)).2 = ["Status " ++ st.val] ∧
      (∀ (k : String) (v : JsonValue) (rest : Reply),
        send ("Status " ++ st.val) = .ok ((k, v) :: rest) →
          (strContains k "Status" = false →
            (get_status send (.val st)).1 =
              .error (.commandError (.badReply ((k, v) :: rest)))) ∧
          (strContains k "Status" = true →
            (get_status send (.val st)).1 = .ok ((k, v) :: rest))) ∧
      StatusType.all.map StatusType.val =
        ["0", "1", "2", "3", "4", "5", "6", "7", "8", "9", "10", "11", "12"] ∧
      StatusType.all.length = 13 := by
  intro send st
  refine ⟨?_, ?_, rfl, rfl⟩
  · cases hs : send ("Status " ++ st.val) with
    | error e => simp [get_status, hs]
    | ok r =>
      cases r with
      | nil => simp [get_status, hs]
      | cons p rest =>
        obtain ⟨k, v⟩ := p
        simp only [get_status, hs]
        split <;> rfl
  · intro k v rest hr
    constructor <;> intro hc <;> simp [get_status, hr, hc]

/-- C7 witness: `Status 6` (NETWORK) with a reply whose first key is
`StatusNET` is accepted and returned raw. -/
theorem get_status_spec_witness :
    (get_status (fun _ => .ok [("StatusNET", .obj [])]) (.val .NETWORK)).1 =
      .ok [("StatusNET", .obj [])] :=
  ((get_status_spec (fun _ => .ok [("StatusNET", .obj [])]) .NETWORK).2.1
      "StatusNET" (.obj []) [] rfl).2 rfl

/-- Follows the spec's words for C8 ("a URL that already carries a
scheme"): the URL has the shape `<scheme>://<rest>` with a nonempty
scheme part. -/
def hasUrlScheme (u : String) : Bool :=
  strContains u "://" && ! strStartsWith u "://"

/-- C8 counterexample: the claim says `http://` is prepended if and only
if no scheme is present, but a URL with a non-http scheme such as
`ftp://example` still gets `http://` prepended. -/
theorem normalizeUrl_prefixes_despite_scheme :
    hasUrlScheme "ftp://example" = true ∧
    normalizeUrl "ftp://example" = "http://ftp://example" := ⟨rfl, rfl⟩

/-- C8 amended: `connect` strips all trailing slashes and prepends
`http://` if and only if the stripped URL starts with neither `http://`
nor `https://`; in particular a URL already carrying an http or https
scheme is used without a second prefix, and the result always starts
with `http://` or `https://`. -/
theorem normalizeUrl_characterization :
    ∀ u : String,
      ((strStartsWith (rstripSlashes u) "http://" ||
          strStartsWith (rstripSlashes u) "https://") = true →
        normalizeUrl u = rstripSlashes u) ∧
      ((strStartsWith (rstripSlashes u) "http://" ||
          strStartsWith (rstripSlashes u) "https://") = false →
        normalizeUrl u = "http://" ++ rstripSlashes u) ∧
      (strStartsWith (normalizeUrl u) "http://" ||
        strStartsWith (normalizeUrl u) "https://") = true := by
  intro u
  refine ⟨fun h => by simp [normalizeUrl, h], fun h => by simp [normalizeUrl, h], ?_⟩
  cases h : (strStartsWith (rstripSlashes u) "http://" ||
      strStartsWith (rstripSlashes u) "https://") with
  | true => simp [normalizeUrl, h]
  | false =>
    have hpre : strStartsWith ("http://" ++ rstripSlashes u) "http://" = true := by
      unfold strStartsWith
      rw [String.data_append]
      exact isPrefixOf_append _ _
    simp [normalizeUrl, h, hpre]

/-- C8 amended, witness: an https URL with a trailing slash is used with
the slash stripped and no second prefix. -/
theorem normalizeUrl_characterization_witness :
    normalizeUrl "https://device.local/" = rstripSlashes "https://device.local/" :=
  (normalizeUrl_characterization "https://device.local/").1 rfl

/-- C10: in `get_blink_count`, `get_blink_time` and `get_friendly_name`,
a reply whose expected key is present but mapped to JSON `null` is
treated like a reply missing the key — the call raises `CommandError` —
and none of the three ever returns a `null` value. -/
theorem null_value_treated_as_missing :
    ∀ (send : String → Except PyError Reply) (r : Reply),
      (lookupKey r "BlinkCount" = some .null → send "BlinkCount" = .ok r →
        (get_blink_count send).1 = .error (.commandError (.badReply r))) ∧
      (lookupKey r "BlinkTime" = some .null → send "BlinkTime" = .ok r →
        (get_blink_time send).1 = .error (.commandError (.badReply r))) ∧
      (∀ o : FriendlyNameOutputType,
        lookupKey r ("FriendlyName" ++ o.val) = some .null →
        send ("FriendlyName" ++ o.val) = .ok r →
        (get_friendly_name send (.val o)).1 =
          .error (.commandError (.badReply r))) ∧
      (∀ v : JsonValue, (get_blink_count send).1 = .ok v →
        v ≠ JsonValue.null) ∧
      (∀ v : JsonValue, (get_blink_time send).1 = .ok v →
        v ≠ JsonValue.null) ∧
      (∀ (o : FriendlyNameOutputType) (v : JsonValue),
        (get_friendly_name send (.val o)).1 = .ok v →
        v ≠ JsonValue.null) := by
  intro send r
  refine ⟨?_, ?_, ?_, ?_, ?_, ?_⟩
  · intro hk hs
    simp [get_blink_count, hs, pyGet_of_null hk]
  · intro hk hs
    simp [get_blink_time, hs, pyGet_of_null hk]
  · intro o hk hs
    simp [get_friendly_name, hs, pyGet_of_null hk]
  · intro v hv
    cases hs : send "BlinkCount" with
    | error e => simp [get_blink_count, hs] at hv
    | ok resp =>
      cases hg : pyGet resp "BlinkCount" with
      | none => simp [get_blink_count, hs, hg] at hv
      | some w =>
        have hw : w = v := by simpa [get_blink_count, hs, hg] using hv
        exact hw ▸ pyGet_ne_null hg
  · intro v hv
    cases hs : send "BlinkTime" with
    | error e => simp [get_blink_time, hs] at hv
    | ok resp =>
      cases hg : pyGet resp "BlinkTime" with
      | none => simp [get_blink_time, hs, hg] at hv
      | some w =>
        have hw : w = v := by simpa [get_blink_time, hs, hg] using hv
        exact hw ▸ pyGet_ne_null hg
  · intro o v hv
    cases hs : send ("FriendlyName" ++ o.val) with
    | error e => simp [get_friendly_name, hs] at hv
    | ok resp =>
      cases hg : pyGet resp ("FriendlyName" ++ o.val) with
      | none => simp [get_friendly_name, hs, hg] at hv
      | some w =>
        have hw : w = v := by simpa [get_friendly_name, hs, hg] using hv
        exact hw ▸ pyGet_ne_null hg

/-- C10 witness: a reply mapping `BlinkCount` to JSON `null` makes
`get_blink_count` raise `CommandError`. -/
theorem null_value_treated_as_missing_witness :
    (get_blink_count (fun _ => .ok [("BlinkCount", .null)])).1 =
      .error (.commandError (.badReply [("BlinkCount", .null)])) :=
  (null_value_treated_as_missing (fun _ => .ok [("BlinkCount", .null)])
      [("BlinkCount", .null)]).1 rfl rfl

end Tasmota
